import Mathlib

/-!
Verification of the QR resolution/caching engine and the attendee-record
validation gate of the gafetes-v2 repository (src/qrs.py and src/excel.py),
via a shallow embedding in Lean 4.

Python strings are modelled as Lean `String`; the handful of Python string
operations the code uses (startswith, endswith, substring containment,
split, rstrip, replace, strip, upper) are defined below over the
underlying character lists, matching CPython semantics on the inputs this
module manipulates.  The filesystem and network are modelled as an
explicit environment of pure functions (`Env`); the resolver is a pure
function from the environment and its arguments to a trace recording the
returned outcome, the cache writes performed, and whether the network was
consulted.  The provenance tag on a success records which branch of the
source produced the bytes.
-/

namespace GafetesV2

/-! ## Python string primitives -/

/-- CPython `str.upper` on a single character, restricted to the alphabets
this module manipulates: ASCII letters and the Latin-1 letters
(U+00E0 to U+00FE except the division sign), which covers the accented
Spanish letters appearing in the source (such as the i-acute of the
affirmative token set). -/
def pyCharUpper (c : Char) : Char :=
  if 'a' ≤ c ∧ c ≤ 'z' then Char.ofNat (c.toNat - 32)
  else if 'à' ≤ c ∧ c ≤ 'þ' ∧ c ≠ '÷' then Char.ofNat (c.toNat - 32)
  else c

/-- Python `s.upper()`. -/
def pyUpper (s : String) : String := ⟨s.data.map pyCharUpper⟩

/-- The characters Python `str.strip()` removes. -/
def pyIsSpace (c : Char) : Bool :=
  c = ' ' || c = '\t' || c = '\n' || c = '\x0d' || c = '\x0b' || c = '\x0c'

/-- Python `s.strip()`. -/
def pyStrip (s : String) : String :=
  ⟨((s.data.dropWhile pyIsSpace).reverse.dropWhile pyIsSpace).reverse⟩

/-- Python `s.startswith(pre)`. -/
def pyStartsWith (s pre : String) : Bool := pre.data.isPrefixOf s.data

/-- Python `s.endswith(suf)`, as a prefix test on the reversed character
lists. -/
def pyEndsWith (s suf : String) : Bool :=
  suf.data.reverse.isPrefixOf s.data.reverse

/-- Python `sub in s` on character lists: some suffix of `s` starts with
`sub`. -/
def pyContainsList (sub : List Char) : List Char → Bool
  | [] => sub.isEmpty
  | c :: rest => sub.isPrefixOf (c :: rest) || pyContainsList sub rest

/-- Python `sub in s` (substring containment). -/
def pyContains (s sub : String) : Bool := pyContainsList sub.data s.data

/-- Python `s.rstrip(chr)` for a single strip character. -/
def pyRstrip (s : String) (strip : Char) : String :=
  ⟨(s.data.reverse.dropWhile (fun c => c = strip)).reverse⟩

/-- Python `s.replace(old, new)` for a one-character `old`, on character
lists. -/
def pyReplaceCharList (old : Char) (new : List Char) : List Char → List Char
  | [] => []
  | c :: rest =>
    (if c = old then new else [c]) ++ pyReplaceCharList old new rest

/-- Python `s.replace(old, new)` for a one-character `old`. -/
def pyReplaceChar (s : String) (old : Char) (new : String) : String :=
  ⟨pyReplaceCharList old new.data s.data⟩

/-- Worker for Python `s.split(sep)`: `acc` is the current token reversed,
and the fuel is at least the length of the remaining input so it never
runs out. -/
def pySplitGo (sep : List Char) : Nat → List Char → List Char → List (List Char)
  | 0, acc, s => [acc.reverse ++ s]
  | fuel + 1, acc, s =>
    match s with
    | [] => [acc.reverse]
    | c :: rest =>
      if sep.isPrefixOf (c :: rest) then
        acc.reverse :: pySplitGo sep fuel [] ((c :: rest).drop sep.length)
      else
        pySplitGo sep fuel (c :: acc) rest

/-- Python `s.split(sep)` for a non-empty separator. -/
def pySplit (s sep : String) : List String :=
  (pySplitGo sep.data (s.data.length + 1) [] s.data).map (fun l => ⟨l⟩)

/-! ## qrs.py: constants and the download loop -/

/-- QR_BASE_URL with the format hole made explicit: the fixed base followed
by the code followed by a trailing slash. -/
def qrBaseUrl (codigo : String) : String :=
  "https://evento-directores.qualitaseventos.mx/downloadQr/" ++ codigo ++ "/"

/-- MAX_RETRIES from qrs.py. -/
def MAX_RETRIES : Nat := 2

/-- The retry loop of download_qr_from_url: attempt `i` is the response of
the network environment `net` at index `i` (`none` models a timeout, a
transport error or a non-2xx status); the first successful attempt is
returned and exhausting the retries yields `none` (the source swallows the
failure into a no-bytes result, it does not raise). -/
def downloadAttempts (net : Nat → Option (List Nat)) : Nat → Nat → Option (List Nat)
  | _, 0 => none
  | i, r + 1 =>
    match net i with
    | some b => some b
    | none => downloadAttempts net (i + 1) r

/-- download_qr_from_url from qrs.py, over the per-attempt network
environment. -/
def download_qr_from_url (net : Nat → Option (List Nat)) (retries : Nat) :
    Option (List Nat) :=
  downloadAttempts net 0 retries

/-! ## qrs.py: the resolver -/

/-- The two acquisition strategies of get_qr_image. -/
inductive Strategy
  | download
  | cache
deriving DecidableEq

/-- Which branch of get_qr_image produced the returned bytes. -/
inductive Provenance
  | localFile
  | cacheValid
  | downloaded
  | generatedFallback
deriving DecidableEq

/-- The filesystem / network / QR-library environment a resolution runs
in: whether the identifier names an existing local file and its content,
which cache files exist and their content, the network response of each
URL at each attempt, and the bytes the qrcode library renders for a given
payload (generate_qr_local delegates the actual rendering to that external
library). -/
structure Env where
  isFile : String → Bool
  readFile : String → List Nat
  cacheFiles : String → Bool
  readCache : String → List Nat
  net : String → Nat → Option (List Nat)
  genQr : String → List Nat

/-- generate_qr_local from qrs.py: the rendering itself is the external
qrcode library, supplied by the environment. -/
def generate_qr_local (env : Env) (data : String) : List Nat := env.genQr data

/-- The observable behaviour of one get_qr_image call: the returned value
(bytes with their provenance, or the raised error message), the cache
writes performed as (path, content) pairs, and whether
download_qr_from_url was invoked. -/
structure ResolveTrace where
  result : Except String (List Nat × Provenance)
  writes : List (String × List Nat)
  networkCalled : Bool

/-- The codigo / url derivation of get_qr_image (qrs.py lines 126-134):
for a URL containing the known download path segment the key is the
trailing path component stripped of slashes; for other URLs a sanitized
form of the URL; for a bare code, the code itself, resolved against the
base-URL template. -/
def derive_codigo_url (q : String) : String × String :=
  if pyStartsWith q "http://" || pyStartsWith q "https://" then
    let url := q
    let codigo :=
      if pyContains url "/downloadQr/" then
        pyRstrip ((pySplit url "/downloadQr/").getLastD "") '/'
      else
        pyReplaceChar (pyReplaceChar q '/' "_") ':' ""
    (codigo, url)
  else
    (q, qrBaseUrl q)

/-- The derived cache key of an identifier. -/
def derive_codigo (q : String) : String := (derive_codigo_url q).1

/-- The derived resolution URL of an identifier. -/
def derive_url (q : String) : String := (derive_codigo_url q).2

/-- os.path.join for the flat cache directory. -/
def pathJoin (dir name : String) : String := dir ++ "/" ++ name

/-- The valid-tier cache filename of a key. -/
def valid_tier_name (k : String) : String := k ++ ".png"

/-- The fallback-tier cache filename of a key. -/
def fallback_tier_name (k : String) : String := k ++ "_local.png"

/-- The cache path get_qr_image probes and writes downloaded bytes to. -/
def cache_path_of (qrs_dir q : String) : String :=
  pathJoin qrs_dir (valid_tier_name (derive_codigo q))

/-- The cache path get_qr_image writes locally generated bytes to. -/
def local_path_of (qrs_dir q : String) : String :=
  pathJoin qrs_dir (fallback_tier_name (derive_codigo q))

/-- The critical error message get_qr_image raises when the server is
unreachable and fallback is disallowed (qrs.py lines 163-167). -/
def critical_error_msg (codigo : String) : String :=
  " ERROR CRÍTICO: No se pudo descargar el QR del servidor para código \x27"
    ++ codigo
    ++ "\x27. Este QR es necesario para el escaneo en el evento. Por favor verifica tu conexión a internet y que el servidor esté disponible."

/-- get_qr_image from qrs.py.  The branches, in source order: an existing
local file is read back directly; under cache strategy an existing cache
file at the valid-tier path short-circuits unless its name ends in
_local.png (in which case the source logs a warning and falls through to
a fresh download); then the download is attempted, a success being
persisted to the valid-tier path under cache strategy; on download
failure the call raises the critical error unless fallback is allowed, in
which case a locally generated image is persisted to the fallback-tier
path under cache strategy and returned. -/
def get_qr_image (env : Env) (qr_code_or_path : String) (strategy : Strategy)
    (qrs_dir : String) (allow_fallback : Bool) : ResolveTrace :=
  if env.isFile qr_code_or_path then
    ⟨.ok (env.readFile qr_code_or_path, .localFile), [], false⟩
  else if strategy = Strategy.cache
      ∧ env.cacheFiles (cache_path_of qrs_dir qr_code_or_path)
      ∧ pyEndsWith (cache_path_of qrs_dir qr_code_or_path) "_local.png" = false then
    ⟨.ok (env.readCache (cache_path_of qrs_dir qr_code_or_path), .cacheValid),
      [], false⟩
  else
    match download_qr_from_url (env.net (derive_url qr_code_or_path)) MAX_RETRIES with
    | some qr_bytes =>
      ⟨.ok (qr_bytes, .downloaded),
        if strategy = Strategy.cache
          then [(cache_path_of qrs_dir qr_code_or_path, qr_bytes)] else [],
        true⟩
    | none =>
      if allow_fallback = false then
        ⟨.error (critical_error_msg (derive_codigo qr_code_or_path)), [], true⟩
      else
        ⟨.ok (generate_qr_local env qr_code_or_path, .generatedFallback),
          if strategy = Strategy.cache
            then [(local_path_of qrs_dir qr_code_or_path,
                   generate_qr_local env qr_code_or_path)] else [],
          true⟩

/-! ## qrs.py: prefetch_qrs -/

/-- Python dict assignment `results[code] = result`: an existing binding
for the key is overwritten in place, a new key is appended. -/
def upsert {α : Type} : List (String × α) → String → α → List (String × α)
  | [], k, v => [(k, v)]
  | (k₂, v₂) :: rest, k, v =>
    if k₂ = k then (k, v) :: rest else (k₂, v₂) :: upsert rest k v

/-- fetch_single from prefetch_qrs: a resolution outcome is a buffer on
success; a raised exception is captured and its message recorded. -/
def fetch_single (env : Env) (strategy : Strategy) (qrs_dir : String)
    (allow_fallback : Bool) (code : String) : Except String (List Nat) :=
  match (get_qr_image env code strategy qrs_dir allow_fallback).result with
  | .ok (b, _) => .ok b
  | .error e => .error e

/-- prefetch_qrs from qrs.py: every code is resolved and its outcome
recorded in the results dictionary keyed by the code.  The worker pool
completes the futures in a nondeterministic order; since the dictionary is
keyed by the identifier, the sequential fold in submission order below
yields the same mapping for distinct codes. -/
def prefetch_qrs (env : Env) (codes : List String) (strategy : Strategy)
    (qrs_dir : String) (allow_fallback : Bool) :
    List (String × Except String (List Nat)) :=
  codes.foldl
    (fun results code =>
      upsert results code (fetch_single env strategy qrs_dir allow_fallback code))
    []

/-! ## qrs.py: clean_cache -/

/-- Whether the cleanup loop deletes a file: it is scanned at all only if
it matches the *.png glob, and it is deleted when its age (current time
minus modification time, in seconds) exceeds the threshold. -/
def should_delete (now max_age_seconds : Int) (f : String × Int) : Bool :=
  pyEndsWith f.1 ".png" && (now - f.2 > max_age_seconds)

/-- clean_cache from qrs.py over an explicit directory state: a list of
(filename, mtime) entries, plus a flag for whether the directory exists at
all.  Deletion is modelled as always succeeding (the source's except
branch around unlink only logs).  Returns the remaining directory state
and the number of files deleted. -/
def clean_cache (dirExists : Bool) (files : List (String × Int)) (now : Int)
    (max_age_days : Int) : List (String × Int) × Nat :=
  if dirExists = false then (files, 0)
  else
    ((files.filter fun f => ! should_delete now (max_age_days * 24 * 60 * 60) f),
     (files.filter fun f => should_delete now (max_age_days * 24 * 60 * 60) f).length)

/-! ## excel.py: boolean parsing and row validation -/

/-- TRUE_VALUES from excel.py. -/
def TRUE_VALUES : List String :=
  ["SI", "SÍ", "S", "YES", "Y", "1", "TRUE", "VERDADERO"]

/-- parse_boolean from excel.py.  A cell value is `none` when pandas read
it as missing (pd.isna), otherwise `some` of its string form. -/
def parse_boolean (value : Option String) : Bool :=
  match value with
  | none => false
  | some v => TRUE_VALUES.contains (pyUpper (pyStrip v))

/-- One validated attendee record, as built by the read_attendees row
loop: every text field is a string (empty when the cell was missing) and
the companion flag has been parsed. -/
structure Attendee where
  puesto : String
  primerNombre : String
  primerApellido : String
  oficina : String
  tour : String
  mesa : String
  llevaConyugue : Bool
  primerNombreConyugue : String
  primerApellidoConyugue : String
  qr : String
  qrConyugue : String
deriving DecidableEq

/-- The errors list validate_row accumulates, in source order.  On the
string-valued entry fields the source's test (falsy or pd.isna) holds
exactly for the empty string, and the conditional block runs exactly when
the parsed companion flag is true. -/
def validate_row_errors (row : Attendee) : List String :=
  (if row.primerNombre = "" then ["PrimerNombre vacío"] else [])
    ++ (if row.primerApellido = "" then ["PrimerApellido vacío"] else [])
    ++ (if row.qr = "" then ["QR vacío"] else [])
    ++ (if row.llevaConyugue then
          (if row.primerNombreConyugue = "" then
            ["LLevaConyugue=True pero PrimerNombreConyugue vacío"] else [])
            ++ (if row.primerApellidoConyugue = "" then
                  ["LLevaConyugue=True pero PrimerApellidoConyugue vacío"] else [])
            ++ (if row.qrConyugue = "" then
                  ["LLevaConyugue=True pero QR_Conyugue vacío"] else [])
        else [])

/-- validate_row from excel.py: `none` when the row is valid, otherwise a
single message carrying the human-facing row number (the zero-based index
plus 2) and every violated rule joined by semicolons. -/
def validate_row (row : Attendee) (row_index : Nat) : Option String :=
  let errors := validate_row_errors row
  if errors = [] then none
  else some ("Fila " ++ toString (row_index + 2) ++ ": "
    ++ String.intercalate "; " errors)

/-- One raw spreadsheet row after pandas reading: each required column's
cell, `none` when pandas read it as missing (with keep_default_na=False
and na_values equal to the singleton empty string, that is exactly the
empty cell). -/
structure RawRow where
  puesto : Option String
  primerNombre : Option String
  primerApellido : Option String
  oficina : Option String
  tour : Option String
  mesa : Option String
  llevaConyugue : Option String
  primerNombreConyugue : Option String
  primerApellidoConyugue : Option String
  qr : Option String
  qrConyugue : Option String

/-- The entry dictionary read_attendees builds from a raw row: missing
cells become the empty string, the companion flag is parsed. -/
def mkEntry (r : RawRow) : Attendee where
  puesto := r.puesto.getD ""
  primerNombre := r.primerNombre.getD ""
  primerApellido := r.primerApellido.getD ""
  oficina := r.oficina.getD ""
  tour := r.tour.getD ""
  mesa := r.mesa.getD ""
  llevaConyugue := parse_boolean r.llevaConyugue
  primerNombreConyugue := r.primerNombreConyugue.getD ""
  primerApellidoConyugue := r.primerApellidoConyugue.getD ""
  qr := r.qr.getD ""
  qrConyugue := r.qrConyugue.getD ""

/-- The row loop of read_attendees (excel.py lines 175-195), over the raw
rows with their zero-based indices: each row is turned into an entry and
validated; valid entries are collected in order, and each invalid row
contributes its error message to the second component. -/
def read_attendees_rows : List RawRow → Nat → List Attendee × List String
  | [], _ => ([], [])
  | r :: rest, idx =>
    let entry := mkEntry r
    let tailRes := read_attendees_rows rest (idx + 1)
    match validate_row entry idx with
    | some msg => (tailRes.1, msg :: tailRes.2)
    | none => (entry :: tailRes.1, tailRes.2)

/-- read_attendees from excel.py, modelling the row-processing loop that
follows the column validation: the list of validated attendee records
returned to the caller. -/
def read_attendees (rows : List RawRow) : List Attendee :=
  (read_attendees_rows rows 0).1

/-- The record invariant of a validated attendee: own first name, last
name and QR identifier non-empty, and when the companion flag is set the
three companion fields are non-empty as well. -/
def attendee_invariant (a : Attendee) : Prop :=
  a.primerNombre ≠ "" ∧ a.primerApellido ≠ "" ∧ a.qr ≠ ""
    ∧ (a.llevaConyugue = true →
        a.primerNombreConyugue ≠ "" ∧ a.primerApellidoConyugue ≠ ""
          ∧ a.qrConyugue ≠ "")

/-! ## Concrete instances used by witnesses and counterexamples -/

/-- A world with no local files, an empty cache and an unreachable server. -/
def envNoServer : Env :=
  ⟨fun _ => false, fun _ => [], fun _ => false, fun _ => [], fun _ _ => none,
   fun _ => [9]⟩

/-- A world with an empty cache and a server answering every request with
the bytes 5. -/
def envDownload : Env :=
  ⟨fun _ => false, fun _ => [], fun _ => false, fun _ => [], fun _ _ => some [5],
   fun _ => [9]⟩

/-- A world where the key QR001 has both a valid-tier and a fallback-tier
cache entry (content bytes 7) and the server is reachable. -/
def envBothTiers : Env :=
  ⟨fun _ => false, fun _ => [0],
   fun p => p == "qrs/QR001.png" || p == "qrs/QR001_local.png",
   fun _ => [7], fun _ _ => some [1, 2, 3], fun _ => [9]⟩

/-- A world where only the file qrs/QR1_local.png exists (the valid-tier
filename of the key QR1_local, equally the fallback-tier filename of the
key QR1) with content bytes 7, and the server answers with the bytes 5. -/
def envLocalKey : Env :=
  ⟨fun _ => false, fun _ => [0], fun p => p == "qrs/QR1_local.png",
   fun _ => [7], fun _ _ => some [5], fun _ => [9]⟩

/-- A raw row that passes validation. -/
def rowOk : RawRow :=
  ⟨some "CEO", some "Ana", some "García", some "MX", some "T1", some "5",
   some "NO", none, none, some "QR1", none⟩

/-- A raw row with the companion flag affirmative but no companion QR
identifier. -/
def rowBad : RawRow :=
  ⟨some "CFO", some "Luis", some "Pérez", some "MX", some "T1", some "6",
   some "SI", some "Mara", some "Lopez", some "QR2", none⟩

/-- An entry violating two rules: empty own first name, and companion flag
set with an empty companion QR identifier. -/
def aBad : Attendee :=
  ⟨"CEO", "", "García", "MX", "T1", "5", true, "Ana", "x", "QR9", ""⟩

/-! ## Helper lemmas -/

/-- A character-list prefix test ignores everything past a character that
does not occur in the pattern. -/
theorem isPrefixOf_append_cons (pat : List Char) (a : Char) (h : a ∉ pat) :
    ∀ xs ys : List Char, pat.isPrefixOf (xs ++ a :: ys) = pat.isPrefixOf xs := by
  induction pat with
  | nil => intro xs ys; simp [List.isPrefixOf]
  | cons c cs ih =>
    intro xs ys
    cases xs with
    | nil =>
      have hca : (c == a) = false := by
        simp only [List.mem_cons, not_or] at h
        simp [beq_iff_eq]; exact fun hh => h.1 hh.symm
      simp [List.isPrefixOf, hca]
    | cons x xs2 =>
      have : a ∉ cs := fun hm => h (List.mem_cons_of_mem _ hm)
      simp [List.isPrefixOf, ih this]

/-- The cache path probed by get_qr_image ends in _local.png exactly when
the derived key ends in _local: the .png extension contributes four of the
ten suffix characters, and a shorter key cannot complete the suffix
because the directory separator would have to be a letter of it. -/
theorem pyEndsWith_valid_tier (dir k : String) :
    pyEndsWith (pathJoin dir (valid_tier_name k)) "_local.png" = pyEndsWith k "_local" := by
  have hdata : (pathJoin dir (valid_tier_name k)).data.reverse
      = 'g' :: 'n' :: 'p' :: '.' :: (k.data.reverse ++ '/' :: dir.data.reverse) := by
    simp [pathJoin, valid_tier_name, String.data_append]
  have hpat : ("_local.png".data.reverse : List Char)
      = 'g' :: 'n' :: 'p' :: '.' :: ['l', 'a', 'c', 'o', 'l', '_'] := rfl
  have hpat2 : ("_local".data.reverse : List Char) = ['l', 'a', 'c', 'o', 'l', '_'] := rfl
  rw [pyEndsWith, pyEndsWith, hdata, hpat, hpat2]
  simp only [List.isPrefixOf, beq_self_eq_true, Bool.true_and]
  exact isPrefixOf_append_cons _ '/' (by decide) _ _

/-- The valid-tier and fallback-tier paths of one key are distinct
filenames (their lengths differ by six). -/
theorem valid_tier_ne_fallback_tier (dir k : String) :
    pathJoin dir (valid_tier_name k) ≠ pathJoin dir (fallback_tier_name k) := by
  intro h
  have hlen : (pathJoin dir (valid_tier_name k)).data.length
      = (pathJoin dir (fallback_tier_name k)).data.length := by rw [h]
  simp [pathJoin, valid_tier_name, fallback_tier_name, String.data_append] at hlen

/-- When every attempt fails, the retry loop yields no bytes. -/
theorem downloadAttempts_eq_none (net : Nat → Option (List Nat))
    (h : ∀ i, net i = none) : ∀ r i, downloadAttempts net i r = none := by
  intro r
  induction r with
  | zero => intro i; rfl
  | succ n ih => intro i; simp [downloadAttempts, h i, ih]

/-- Exhaustive case analysis of a get_qr_image call: exactly one of the
five source branches fires, and the trace is the corresponding literal. -/
theorem get_qr_image_cases (env : Env) (q : String) (strat : Strategy)
    (dir : String) (fb : Bool) :
    (env.isFile q = true
      ∧ get_qr_image env q strat dir fb
          = ⟨.ok (env.readFile q, .localFile), [], false⟩)
    ∨ (env.isFile q = false
      ∧ strat = Strategy.cache ∧ env.cacheFiles (cache_path_of dir q) = true
      ∧ pyEndsWith (cache_path_of dir q) "_local.png" = false
      ∧ get_qr_image env q strat dir fb
          = ⟨.ok (env.readCache (cache_path_of dir q), .cacheValid), [], false⟩)
    ∨ (env.isFile q = false
      ∧ ¬ (strat = Strategy.cache ∧ env.cacheFiles (cache_path_of dir q) = true
            ∧ pyEndsWith (cache_path_of dir q) "_local.png" = false)
      ∧ ∃ b, download_qr_from_url (env.net (derive_url q)) MAX_RETRIES = some b
        ∧ get_qr_image env q strat dir fb
            = ⟨.ok (b, .downloaded),
                if strat = Strategy.cache then [(cache_path_of dir q, b)] else [],
                true⟩)
    ∨ (env.isFile q = false
      ∧ ¬ (strat = Strategy.cache ∧ env.cacheFiles (cache_path_of dir q) = true
            ∧ pyEndsWith (cache_path_of dir q) "_local.png" = false)
      ∧ download_qr_from_url (env.net (derive_url q)) MAX_RETRIES = none
      ∧ fb = false
      ∧ get_qr_image env q strat dir fb
          = ⟨.error (critical_error_msg (derive_codigo q)), [], true⟩)
    ∨ (env.isFile q = false
      ∧ ¬ (strat = Strategy.cache ∧ env.cacheFiles (cache_path_of dir q) = true
            ∧ pyEndsWith (cache_path_of dir q) "_local.png" = false)
      ∧ download_qr_from_url (env.net (derive_url q)) MAX_RETRIES = none
      ∧ fb = true
      ∧ get_qr_image env q strat dir fb
          = ⟨.ok (generate_qr_local env q, .generatedFallback),
              if strat = Strategy.cache
                then [(local_path_of dir q, generate_qr_local env q)] else [],
              true⟩) := by
  unfold get_qr_image
  split
  next hf => exact Or.inl ⟨hf, rfl⟩
  next hf =>
    split
    next hc =>
      exact Or.inr (Or.inl ⟨by simpa using hf, hc.1, hc.2.1, hc.2.2, rfl⟩)
    next hc =>
      split
      next b hb =>
        exact Or.inr (Or.inr (Or.inl ⟨by simpa using hf, hc, b, hb, rfl⟩))
      next hb =>
        split
        next hfb =>
          exact Or.inr (Or.inr (Or.inr (Or.inl
            ⟨by simpa using hf, hc, hb, hfb, rfl⟩)))
        next hfb =>
          exact Or.inr (Or.inr (Or.inr (Or.inr
            ⟨by simpa using hf, hc, hb, by simpa using hfb, rfl⟩)))

/-- Assigning a fresh key to the results dictionary appends the binding. -/
theorem upsert_not_mem {α : Type} (k : String) (v : α) :
    ∀ m : List (String × α), k ∉ m.map Prod.fst → upsert m k v = m ++ [(k, v)] := by
  intro m
  induction m with
  | nil => intro _; rfl
  | cons kv rest ih =>
    intro h
    obtain ⟨k₂, v₂⟩ := kv
    simp only [List.map_cons, List.mem_cons, not_or] at h
    rw [upsert, if_neg (fun he => h.1 he.symm), ih h.2]
    simp

/-- Folding distinct fresh keys into the results dictionary produces
exactly one binding per key, in order. -/
theorem foldl_upsert_eq {α : Type} (f : String → α) :
    ∀ (codes : List String) (m : List (String × α)),
      codes.Nodup → (∀ c ∈ codes, c ∉ m.map Prod.fst) →
      codes.foldl (fun r c => upsert r c (f c)) m
        = m ++ codes.map (fun c => (c, f c)) := by
  intro codes
  induction codes with
  | nil => intro m _ _; simp
  | cons c cs ih =>
    intro m hnd hdis
    have hnd2 := List.nodup_cons.mp hnd
    rw [List.foldl_cons, upsert_not_mem c (f c) m (hdis c (List.mem_cons_self c cs))]
    rw [ih (m ++ [(c, f c)]) hnd2.2 ?_]
    · simp
    · intro d hd
      simp only [List.map_append, List.mem_append, not_or]
      refine ⟨hdis d (List.mem_cons_of_mem _ hd), ?_⟩
      simp only [List.map_cons, List.map_nil, List.mem_singleton]
      intro hdc
      exact hnd2.1 (hdc ▸ hd)

/-- The accumulated errors list is empty exactly when every rule of
validate_row holds. -/
theorem validate_row_errors_eq_nil (a : Attendee) :
    validate_row_errors a = [] ↔
      (a.primerNombre ≠ "" ∧ a.primerApellido ≠ "" ∧ a.qr ≠ ""
        ∧ (a.llevaConyugue = true →
            a.primerNombreConyugue ≠ "" ∧ a.primerApellidoConyugue ≠ ""
              ∧ a.qrConyugue ≠ "")) := by
  rw [validate_row_errors]
  by_cases h1 : a.primerNombre = "" <;> by_cases h2 : a.primerApellido = "" <;>
    by_cases h3 : a.qr = "" <;> by_cases h4 : a.llevaConyugue <;>
    by_cases h5 : a.primerNombreConyugue = "" <;>
    by_cases h6 : a.primerApellidoConyugue = "" <;>
    by_cases h7 : a.qrConyugue = "" <;>
    simp [h1, h2, h3, h4, h5, h6, h7]

/-- validate_row accepts a row exactly when every rule holds. -/
theorem validate_row_eq_none_iff (a : Attendee) (i : Nat) :
    validate_row a i = none ↔
      (a.primerNombre ≠ "" ∧ a.primerApellido ≠ "" ∧ a.qr ≠ ""
        ∧ (a.llevaConyugue = true →
            a.primerNombreConyugue ≠ "" ∧ a.primerApellidoConyugue ≠ ""
              ∧ a.qrConyugue ≠ "")) := by
  rw [← validate_row_errors_eq_nil, validate_row]
  by_cases h : validate_row_errors a = [] <;> simp [h]

/-- Every record the row loop keeps satisfies the record invariant. -/
theorem read_attendees_rows_invariant :
    ∀ (rows : List RawRow) (i : Nat) (a : Attendee),
      a ∈ (read_attendees_rows rows i).1 → attendee_invariant a := by
  intro rows
  induction rows with
  | nil => intro i a h; simp [read_attendees_rows] at h
  | cons r rest ih =>
    intro i a h
    simp only [read_attendees_rows] at h
    split at h
    · exact ih (i + 1) a h
    · next heq =>
      rcases List.mem_cons.mp h with rfl | hmem
      · exact (validate_row_eq_none_iff _ i).mp heq
      · exact ih (i + 1) a hmem

/-! ## Claims -/

/-- Claim C1: for an identifier that is not an existing local file, when
every download attempt fails, fallback is disallowed and no valid cached
entry short-circuits the call, get_qr_image returns the distinguished
server-unreachable critical error; moreover, over all inputs, that
critical error is the only error the resolver ever returns, and with
fallback disallowed no returned success ever has the locally generated
provenance. -/
theorem c1_fallback_gate (env : Env) (q dir : String) (strat : Strategy)
    (hFile : env.isFile q = false)
    (hNet : ∀ i, env.net (derive_url q) i = none)
    (hNoHit : ¬ (strat = Strategy.cache
        ∧ env.cacheFiles (cache_path_of dir q) = true
        ∧ pyEndsWith (cache_path_of dir q) "_local.png" = false)) :
    (get_qr_image env q strat dir false).result
        = Except.error (critical_error_msg (derive_codigo q))
    ∧ (∀ (env2 : Env) (q2 dir2 : String) (s2 : Strategy) (fb2 : Bool) (m : String),
        (get_qr_image env2 q2 s2 dir2 fb2).result = Except.error m
          → m = critical_error_msg (derive_codigo q2))
    ∧ (∀ (env3 : Env) (q3 dir3 : String) (s3 : Strategy) (b : List Nat) (p : Provenance),
        (get_qr_image env3 q3 s3 dir3 false).result = Except.ok (b, p)
          → p ≠ Provenance.generatedFallback) := by
  refine ⟨?_, ?_, ?_⟩
  · simp only [get_qr_image, hFile, Bool.false_eq_true, if_false]
    rw [if_neg hNoHit, download_qr_from_url,
      downloadAttempts_eq_none (env.net (derive_url q)) hNet MAX_RETRIES 0]
    rfl
  · intro env2 q2 dir2 s2 fb2 m h
    unfold get_qr_image at h
    split at h
    · simp at h
    · split at h
      · simp at h
      · split at h
        · simp at h
        · split at h
          · simp at h; exact h.symm
          · simp at h
  · intro env3 q3 dir3 s3 b p h
    unfold get_qr_image at h
    split at h
    · simp at h; intro hp; rw [← h.2] at hp; cases hp
    · split at h
      · simp at h; intro hp; rw [← h.2] at hp; cases hp
      · split at h
        · simp at h; intro hp; rw [← h.2] at hp; cases hp
        · split at h
          · simp at h
          · exact absurd rfl (by assumption)

/-- Witness for C1: in a world with an unreachable server, an empty cache
and no local file, resolving the bare code QR001 without fallback yields
the critical error. -/
theorem c1_fallback_gate_witness :
    (get_qr_image envNoServer "QR001" Strategy.download "qrs" false).result
      = Except.error (critical_error_msg "QR001") :=
  (c1_fallback_gate envNoServer "QR001" "qrs" Strategy.download rfl (fun _ => rfl)
    (fun hc => Strategy.noConfusion hc.1)).1

/-- Claim C2: under cache strategy the valid-tier and fallback-tier
filenames of the derived key are distinct; downloaded bytes are persisted
exactly to the valid-tier path, locally generated bytes exactly to the
fallback-tier path, and every cache write performed by the call is one of
those two, tagged with the matching returned provenance. -/
theorem c2_tier_exclusivity (env : Env) (q dir : String) (fb : Bool) :
    pathJoin dir (valid_tier_name (derive_codigo q))
        ≠ pathJoin dir (fallback_tier_name (derive_codigo q))
    ∧ (∀ b, (get_qr_image env q Strategy.cache dir fb).result
            = Except.ok (b, Provenance.downloaded)
        → (get_qr_image env q Strategy.cache dir fb).writes
            = [(cache_path_of dir q, b)])
    ∧ (∀ b, (get_qr_image env q Strategy.cache dir fb).result
            = Except.ok (b, Provenance.generatedFallback)
        → (get_qr_image env q Strategy.cache dir fb).writes
            = [(local_path_of dir q, b)])
    ∧ (∀ p b, (p, b) ∈ (get_qr_image env q Strategy.cache dir fb).writes
        → (p = cache_path_of dir q
            ∧ (get_qr_image env q Strategy.cache dir fb).result
                = Except.ok (b, Provenance.downloaded))
          ∨ (p = local_path_of dir q
            ∧ (get_qr_image env q Strategy.cache dir fb).result
                = Except.ok (b, Provenance.generatedFallback))) := by
  refine ⟨valid_tier_ne_fallback_tier dir (derive_codigo q), ?_, ?_, ?_⟩ <;>
  rcases get_qr_image_cases env q Strategy.cache dir fb with
    ⟨_, ht⟩ | ⟨_, _, _, _, ht⟩ | ⟨_, _, b2, hb2, ht⟩ | ⟨_, _, _, _, ht⟩ | ⟨_, _, _, _, ht⟩ <;>
  rw [ht] <;> simp

/-- Witness for C2: in a world with an empty cache and a reachable server,
resolving QR001 under cache strategy writes the downloaded bytes to the
valid-tier path. -/
theorem c2_tier_exclusivity_witness :
    (get_qr_image envDownload "QR001" Strategy.cache "qrs" false).writes
      = [(cache_path_of "qrs" "QR001", [5])] :=
  (c2_tier_exclusivity envDownload "QR001" "qrs" false).2.1 [5] rfl

/-- Counterexample to C3 as stated: with both a valid-tier and a
fallback-tier entry cached for QR001 and the server reachable on every
attempt, get_qr_image performs no network call at all and returns the
cached valid-tier bytes, rather than performing a fresh server download. -/
theorem c3_counterexample :
    envBothTiers.cacheFiles "qrs/QR001.png" = true
    ∧ envBothTiers.cacheFiles "qrs/QR001_local.png" = true
    ∧ (∀ i, envBothTiers.net (derive_url "QR001") i = some [1, 2, 3])
    ∧ (get_qr_image envBothTiers "QR001" Strategy.cache "qrs" false).networkCalled = false
    ∧ (get_qr_image envBothTiers "QR001" Strategy.cache "qrs" false).result
        = Except.ok ([7], Provenance.cacheValid) :=
  ⟨rfl, rfl, fun _ => rfl, rfl, rfl⟩

/-- Claim C3 as amended: with both tiers cached for a key not ending in
_local and the server reachable, resolution under cache strategy returns
the valid-tier entry with no network call and no writes; the stale
fallback entry is ignored for the call (its bytes are never returned). -/
theorem c3_cache_precedence_amended (env : Env) (q dir : String) (fb : Bool)
    (hFile : env.isFile q = false)
    (hValid : env.cacheFiles (cache_path_of dir q) = true)
    (_hFall : env.cacheFiles (pathJoin dir (fallback_tier_name (derive_codigo q))) = true)
    (hKey : pyEndsWith (derive_codigo q) "_local" = false)
    (_hReach : ∃ b, env.net (derive_url q) 0 = some b) :
    get_qr_image env q Strategy.cache dir fb
      = ⟨.ok (env.readCache (cache_path_of dir q), .cacheValid), [], false⟩ := by
  have hnl : pyEndsWith (cache_path_of dir q) "_local.png" = false := by
    rw [cache_path_of, pyEndsWith_valid_tier]; exact hKey
  rcases get_qr_image_cases env q Strategy.cache dir fb with
    ⟨hf, _⟩ | ⟨_, _, _, _, ht⟩ | ⟨_, hn, _⟩ | ⟨_, hn, _⟩ | ⟨_, hn, _⟩
  · rw [hFile] at hf; cases hf
  · exact ht
  all_goals exact absurd ⟨rfl, hValid, hnl⟩ hn

/-- Witness for the amended C3: in the two-tier world of the
counterexample the call indeed returns the valid-tier bytes untouched. -/
theorem c3_cache_precedence_amended_witness :
    get_qr_image envBothTiers "QR001" Strategy.cache "qrs" false
      = ⟨.ok ([7], Provenance.cacheValid), [], false⟩ :=
  c3_cache_precedence_amended envBothTiers "QR001" "qrs" false rfl rfl rfl rfl
    ⟨[1, 2, 3], rfl⟩

/-- Counterexample to C4 as stated: for the identifier QR1_local the
valid-tier file of the derived key exists (qrs/QR1_local.png, holding the
bytes 7), yet get_qr_image does not return it: it makes a network call
and returns the freshly downloaded bytes 5. -/
theorem c4_counterexample :
    envLocalKey.cacheFiles (cache_path_of "qrs" "QR1_local") = true
    ∧ envLocalKey.readCache (cache_path_of "qrs" "QR1_local") = [7]
    ∧ (get_qr_image envLocalKey "QR1_local" Strategy.cache "qrs" false).networkCalled = true
    ∧ (get_qr_image envLocalKey "QR1_local" Strategy.cache "qrs" false).result
        = Except.ok ([5], Provenance.downloaded) :=
  ⟨rfl, rfl, rfl, rfl⟩

/-- Claim C4 as amended: under cache strategy, if the valid-tier file of
the derived key exists and the key does not end in _local, get_qr_image
returns its bytes with no network call and no writes; and whenever the
valid-tier file is absent (in particular when only the fallback-tier file
exists) the resolution does not short-circuit and attempts a download. -/
theorem c4_short_circuit_amended (env : Env) (q dir : String) (fb : Bool)
    (hFile : env.isFile q = false) :
    (env.cacheFiles (cache_path_of dir q) = true →
      pyEndsWith (derive_codigo q) "_local" = false →
      get_qr_image env q Strategy.cache dir fb
        = ⟨.ok (env.readCache (cache_path_of dir q), .cacheValid), [], false⟩)
    ∧ (env.cacheFiles (cache_path_of dir q) = false →
      (get_qr_image env q Strategy.cache dir fb).networkCalled = true) := by
  constructor
  · intro hValid hKey
    have hnl : pyEndsWith (cache_path_of dir q) "_local.png" = false := by
      rw [cache_path_of, pyEndsWith_valid_tier]; exact hKey
    rcases get_qr_image_cases env q Strategy.cache dir fb with
      ⟨hf, _⟩ | ⟨_, _, _, _, ht⟩ | ⟨_, hn, _⟩ | ⟨_, hn, _⟩ | ⟨_, hn, _⟩
    · rw [hFile] at hf; cases hf
    · exact ht
    all_goals exact absurd ⟨rfl, hValid, hnl⟩ hn
  · intro hAbsent
    rcases get_qr_image_cases env q Strategy.cache dir fb with
      ⟨hf, _⟩ | ⟨_, _, hc, _, _⟩ | ⟨_, _, _, _, ht⟩ | ⟨_, _, _, _, ht⟩ | ⟨_, _, _, _, ht⟩
    · rw [hFile] at hf; cases hf
    · rw [hAbsent] at hc; cases hc
    all_goals rw [ht]

/-- Witness for the amended C4: a cached valid-tier entry for QR001 is
returned without network traffic, and with an empty cache the same call
goes to the network. -/
theorem c4_short_circuit_amended_witness :
    (get_qr_image envBothTiers "QR001" Strategy.cache "qrs" false
        = ⟨.ok ([7], Provenance.cacheValid), [], false⟩)
    ∧ (get_qr_image envNoServer "QR001" Strategy.cache "qrs" false).networkCalled = true :=
  ⟨(c4_short_circuit_amended envBothTiers "QR001" "qrs" false rfl).1 rfl rfl,
   (c4_short_circuit_amended envNoServer "QR001" "qrs" false rfl).2 rfl⟩

/-- Claim C5: on a duplicate-free list of identifiers, prefetch_qrs
returns the mapping that binds every input identifier, in order, to its
captured resolution outcome (bytes or error string); in particular the
mapping has exactly one key per input identifier, whatever the outcomes. -/
theorem c5_prefetch_completeness (env : Env) (codes : List String)
    (strategy : Strategy) (dir : String) (fb : Bool) (h : codes.Nodup) :
    prefetch_qrs env codes strategy dir fb
        = codes.map (fun c => (c, fetch_single env strategy dir fb c))
    ∧ (prefetch_qrs env codes strategy dir fb).map Prod.fst = codes
    ∧ (prefetch_qrs env codes strategy dir fb).length = codes.length := by
  have he := foldl_upsert_eq (fetch_single env strategy dir fb) codes [] h (by simp)
  rw [prefetch_qrs]
  simp only [List.nil_append] at he
  refine ⟨he, ?_, ?_⟩
  · rw [he, List.map_map]
    have hcomp : (Prod.fst ∘ fun c => (c, fetch_single env strategy dir fb c))
        = fun c => c := funext fun c => rfl
    rw [hcomp]
    simp
  · rw [he]
    simp

/-- Witness for C5: with an unreachable server and fallback disallowed,
both resolutions fail, yet the mapping still has one entry per
identifier, holding the captured error messages. -/
theorem c5_prefetch_completeness_witness :
    prefetch_qrs envNoServer ["A", "B"] Strategy.download "qrs" false
      = [("A", Except.error (critical_error_msg "A")),
         ("B", Except.error (critical_error_msg "B"))] :=
  (c5_prefetch_completeness envNoServer ["A", "B"] Strategy.download "qrs" false
    (by decide)).1

/-- Claim C6: every record read_attendees returns satisfies the record
invariant (own name fields and QR non-empty, companion fields non-empty
whenever the companion flag is set), and a row whose companion flag is
set with an empty companion QR identifier is rejected by validate_row
regardless of every other field. -/
theorem c6_attendee_invariant :
    (∀ (rows : List RawRow) (a : Attendee),
      a ∈ read_attendees rows → attendee_invariant a)
    ∧ (∀ (a : Attendee) (i : Nat),
        a.llevaConyugue = true → a.qrConyugue = "" → validate_row a i ≠ none) := by
  constructor
  · intro rows a h
    exact read_attendees_rows_invariant rows 0 a h
  · intro a i h1 h2 hnone
    exact ((validate_row_eq_none_iff a i).mp hnone).2.2.2 h1 |>.2.2 h2

/-- Witness for C6: from a two-row sheet the clean row is returned and
satisfies the invariant, and the row with an affirmative companion flag
but no companion QR is rejected. -/
theorem c6_attendee_invariant_witness :
    attendee_invariant (mkEntry rowOk) ∧ validate_row (mkEntry rowBad) 1 ≠ none :=
  ⟨c6_attendee_invariant.1 [rowOk, rowBad] (mkEntry rowOk) (by decide),
   c6_attendee_invariant.2 (mkEntry rowBad) 1 rfl rfl⟩

/-- Claim C7: parse_boolean is true exactly when the stripped,
upper-cased string form of the value is one of the eight fixed
affirmative tokens, so membership is case-insensitive; the missing value,
the empty string, the token NO and arbitrary unrecognized strings all
parse to false, as the enumerated concrete cases certify. -/
theorem c7_parse_boolean_spec :
    (∀ s : String, parse_boolean (some s) = true ↔
      (pyUpper (pyStrip s) = "SI" ∨ pyUpper (pyStrip s) = "SÍ"
        ∨ pyUpper (pyStrip s) = "S" ∨ pyUpper (pyStrip s) = "YES"
        ∨ pyUpper (pyStrip s) = "Y" ∨ pyUpper (pyStrip s) = "1"
        ∨ pyUpper (pyStrip s) = "TRUE" ∨ pyUpper (pyStrip s) = "VERDADERO"))
    ∧ parse_boolean none = false
    ∧ parse_boolean (some "") = false
    ∧ parse_boolean (some "NO") = false
    ∧ parse_boolean (some "no") = false
    ∧ parse_boolean (some "SI") = true
    ∧ parse_boolean (some "si") = true
    ∧ parse_boolean (some "Sí") = true
    ∧ parse_boolean (some "sí") = true
    ∧ parse_boolean (some "s") = true
    ∧ parse_boolean (some "yes") = true
    ∧ parse_boolean (some "Y") = true
    ∧ parse_boolean (some "y") = true
    ∧ parse_boolean (some "1") = true
    ∧ parse_boolean (some "true") = true
    ∧ parse_boolean (some "TRUE") = true
    ∧ parse_boolean (some "Verdadero") = true
    ∧ parse_boolean (some " SI ") = true
    ∧ parse_boolean (some "QUIZAS") = false
    ∧ parse_boolean (some "SII") = false := by
  constructor
  · intro s
    simp [parse_boolean, TRUE_VALUES]
  · decide

/-- Witness for C7: the lower-case accented affirmative token with
surrounding spaces parses to true through the membership criterion. -/
theorem c7_parse_boolean_spec_witness : parse_boolean (some " sí ") = true :=
  (c7_parse_boolean_spec.1 " sí ").mpr (Or.inr (Or.inl (by decide)))

/-- Claim C8: an invalid row produces the single aggregated message
carrying the human-facing row number (the zero-based index plus two) and
the semicolon-joined list of the violated rules; each of the six rule
messages occurs in that list exactly when the corresponding rule is
violated, so the message lists every violation, not only the first. -/
theorem c8_aggregated_errors (a : Attendee) (i : Nat)
    (h : validate_row a i ≠ none) :
    validate_row a i = some ("Fila " ++ toString (i + 2) ++ ": "
        ++ String.intercalate "; " (validate_row_errors a))
    ∧ validate_row_errors a ≠ []
    ∧ (("PrimerNombre vacío" ∈ validate_row_errors a) ↔ a.primerNombre = "")
    ∧ (("PrimerApellido vacío" ∈ validate_row_errors a) ↔ a.primerApellido = "")
    ∧ (("QR vacío" ∈ validate_row_errors a) ↔ a.qr = "")
    ∧ (("LLevaConyugue=True pero PrimerNombreConyugue vacío" ∈ validate_row_errors a)
        ↔ (a.llevaConyugue = true ∧ a.primerNombreConyugue = ""))
    ∧ (("LLevaConyugue=True pero PrimerApellidoConyugue vacío" ∈ validate_row_errors a)
        ↔ (a.llevaConyugue = true ∧ a.primerApellidoConyugue = ""))
    ∧ (("LLevaConyugue=True pero QR_Conyugue vacío" ∈ validate_row_errors a)
        ↔ (a.llevaConyugue = true ∧ a.qrConyugue = "")) := by
  have hne : validate_row_errors a ≠ [] := by
    intro hnil
    exact h (by rw [validate_row]; simp [hnil])
  refine ⟨by rw [validate_row]; simp [hne], hne, ?_, ?_, ?_, ?_, ?_, ?_⟩ <;>
  · rw [validate_row_errors]
    by_cases h1 : a.primerNombre = "" <;> by_cases h2 : a.primerApellido = "" <;>
      by_cases h3 : a.qr = "" <;> by_cases h4 : a.llevaConyugue <;>
      by_cases h5 : a.primerNombreConyugue = "" <;>
      by_cases h6 : a.primerApellidoConyugue = "" <;>
      by_cases h7 : a.qrConyugue = "" <;>
      simp [h1, h2, h3, h4, h5, h6, h7]

/-- Witness for C8: a row violating two rules (empty own first name,
companion flag set with empty companion QR) is tagged with row number 2
and lists both violations in one message. -/
theorem c8_aggregated_errors_witness :
    validate_row aBad 0
      = some "Fila 2: PrimerNombre vacío; LLevaConyugue=True pero QR_Conyugue vacío" :=
  (c8_aggregated_errors aBad 0 (by decide)).1

/-- Claim C9: a second run of clean_cache on the directory state produced
by a first run with the same time and threshold deletes zero files and
leaves the state unchanged. -/
theorem c9_clean_cache_idempotent (dirExists : Bool) (files : List (String × Int))
    (now : Int) (max_age_days : Int) :
    (clean_cache dirExists (clean_cache dirExists files now max_age_days).1
        now max_age_days).2 = 0
    ∧ (clean_cache dirExists (clean_cache dirExists files now max_age_days).1
        now max_age_days).1 = (clean_cache dirExists files now max_age_days).1 := by
  cases dirExists with
  | false => simp [clean_cache]
  | true =>
    simp only [clean_cache, Bool.true_eq_false, if_neg, ite_false]
    constructor
    · rw [List.filter_filter, List.length_eq_zero]
      refine List.filter_eq_nil_iff.mpr ?_
      intro a _
      simp
    · rw [List.filter_filter]
      simp

/-- Claim C10: under cache strategy (for a non-local-file identifier) the
cached-entry short-circuit fires exactly when the valid-tier file of the
derived key exists and the key does not end in _local; when the key does
end in _local the resolution always goes to the network and never returns
a cache-valid outcome; and the valid-tier filename of a key extended with
the _local suffix coincides with the fallback-tier filename of that key. -/
theorem c10_short_circuit_guard (env : Env) (q dir : String) (fb : Bool)
    (hFile : env.isFile q = false) :
    (((get_qr_image env q Strategy.cache dir fb).result
          = Except.ok (env.readCache (cache_path_of dir q), Provenance.cacheValid)
        ∧ (get_qr_image env q Strategy.cache dir fb).networkCalled = false)
      ↔ (env.cacheFiles (cache_path_of dir q) = true
        ∧ pyEndsWith (derive_codigo q) "_local" = false))
    ∧ (pyEndsWith (derive_codigo q) "_local" = true →
        (get_qr_image env q Strategy.cache dir fb).networkCalled = true
        ∧ ∀ b, (get_qr_image env q Strategy.cache dir fb).result
            = Except.ok (b, Provenance.cacheValid) → False)
    ∧ (∀ k2 : String, valid_tier_name (k2 ++ "_local") = fallback_tier_name k2) := by
  refine ⟨⟨?_, ?_⟩, ?_, ?_⟩
  · intro ⟨hres, hnet⟩
    rcases get_qr_image_cases env q Strategy.cache dir fb with
      ⟨hf, _⟩ | ⟨_, _, hc, hnl, _⟩ | ⟨_, _, _, _, ht⟩ | ⟨_, _, _, _, ht⟩ | ⟨_, _, _, _, ht⟩
    · rw [hFile] at hf; cases hf
    · refine ⟨hc, ?_⟩; rw [cache_path_of, pyEndsWith_valid_tier] at hnl; exact hnl
    all_goals rw [ht] at hnet; cases hnet
  · intro ⟨hc, hKey⟩
    have hnl : pyEndsWith (cache_path_of dir q) "_local.png" = false := by
      rw [cache_path_of, pyEndsWith_valid_tier]; exact hKey
    rcases get_qr_image_cases env q Strategy.cache dir fb with
      ⟨hf, _⟩ | ⟨_, _, _, _, ht⟩ | ⟨_, hn, _⟩ | ⟨_, hn, _⟩ | ⟨_, hn, _⟩
    · rw [hFile] at hf; cases hf
    · rw [ht]; exact ⟨rfl, rfl⟩
    all_goals exact absurd ⟨rfl, hc, hnl⟩ hn
  · intro hKey
    have hnl : pyEndsWith (cache_path_of dir q) "_local.png" = true := by
      rw [cache_path_of, pyEndsWith_valid_tier]; exact hKey
    rcases get_qr_image_cases env q Strategy.cache dir fb with
      ⟨hf, _⟩ | ⟨_, _, _, hx, _⟩ | ⟨_, _, b2, _, ht⟩ | ⟨_, _, _, _, ht⟩ | ⟨_, _, _, _, ht⟩
    · rw [hFile] at hf; cases hf
    · rw [hnl] at hx; cases hx
    all_goals
      rw [ht]
      exact ⟨rfl, fun b hb => by simp at hb⟩
  · intro k2
    rw [valid_tier_name, fallback_tier_name, String.append_assoc]
    congr 1

/-- Witness for C10: the identifier QR1_local derives a key ending in
_local, and even with its valid-tier file present the resolution makes a
network call. -/
theorem c10_short_circuit_guard_witness :
    (get_qr_image envLocalKey "QR1_local" Strategy.cache "qrs" false).networkCalled = true :=
  ((c10_short_circuit_guard envLocalKey "QR1_local" "qrs" false rfl).2.1 rfl).1

end GafetesV2
